import Mathlib

/-
Verification development for the traffic-generation core in
`src/runtime/src/source.rs` (the `ProbeTracker` probe pacer and the
`TimerSource::spawn` event loop).

Modelling conventions:
- Rust `usize` fields are embedded as `Nat` (the pacer only ever adds and
  divides nonnegative quantities, so no wraparound occurs in the source).
- Rust `f64` values (`target_in_kbps` and the intermediate rate arithmetic
  in `start_probe`) are embedded as exact rationals `ℚ`; the `as usize`
  conversion (truncation toward zero, saturating at 0 for negative values)
  is embedded as `fun x => (Int.floor x).toNat`, which agrees with it on
  every rational.
- The event loop is embedded as a pure transition function `stepEvent` on
  a `LoopState` record holding the pacer, the `bytes_emitted` counter, the
  `probe_complete` flag and the outbound data queue.  The external policy
  collaborator (`Adapt + Experiment`) is out of scope per the spec, so the
  values it supplies on a tick (`next_datum`, `current_level`) appear as
  parameters of the `Timer` event.
-/

namespace AWStream

/-- Modelled from the spec: the `AsDatum` type itself is outside `src/`
(only its callers are in `source.rs`).  Per spec section 3, a DataUnit has
an integer `level` (probes carry a sentinel level, e.g. -1) and a
nonnegative `payload_size`. -/
structure AsDatum where
  level : Int
  payload_size : Nat
deriving DecidableEq, Repr

/-- Modelled from the spec: the probe construction mode of `AsDatum` uses a
fixed sentinel level (-1) and the given size (the pacer's current pace). -/
def AsDatum.probe (size : Nat) : AsDatum :=
  { level := -1, payload_size := size }

/-- Modelled from the spec: the regular construction mode
`AsDatum::new(level, vec![0; size])`; the payload `vec![0; size]` has
length `size`. -/
def AsDatum.new (level : Int) (size : Nat) : AsDatum :=
  { level := level, payload_size := size }

/-- Modelled from the spec: `len()` of a datum is its payload size, the
quantity by which `bytes_emitted` is increased on emission. -/
def AsDatum.len (d : AsDatum) : Nat :=
  d.payload_size

/-- State of the probe pacer, `struct ProbeTracker` in `source.rs`. -/
structure ProbeTracker where
  tick_period : Nat
  target_in_kbps : Rat
  target_pace : Nat
  pace : Nat
  delta : Nat
deriving DecidableEq, Repr

/-- The ramp-up constant `NUM_PROBE_REQUIRED` from `source.rs`. -/
def NUM_PROBE_REQUIRED : Nat := 5

/-- Constructor `ProbeTracker::new` from `source.rs`. -/
def ProbeTracker.new (tick_period : Nat) : ProbeTracker :=
  { tick_period := tick_period
    target_in_kbps := 0
    target_pace := 0
    delta := 0
    pace := 0 }

/-- Embedding of `ProbeTracker::start_probe`.  The `f64` arithmetic is
embedded as exact rational arithmetic and `as usize` as
`(Int.floor · ).toNat` (truncation toward zero, saturating at 0). -/
def ProbeTracker.start_probe (self : ProbeTracker) (additional_kbps : Rat) : ProbeTracker :=
  let bytes_per_sec : Rat := additional_kbps * 1000 / 8
  let ticks_per_sec : Rat := 1000 / (self.tick_period : Rat)
  let size_per_tick : Rat := bytes_per_sec / ticks_per_sec
  let target_pace : Nat := (Int.floor size_per_tick).toNat
  let delta : Nat := target_pace / NUM_PROBE_REQUIRED
  { self with
    target_in_kbps := additional_kbps
    target_pace := target_pace
    delta := delta
    pace := delta }

/-- Embedding of `ProbeTracker::inc_pace`: returns the updated tracker and
the Rust function's boolean result (`true` = still increasing, `false` =
saturated). -/
def ProbeTracker.inc_pace (self : ProbeTracker) : ProbeTracker × Bool :=
  if self.pace < self.target_pace then
    ({ self with pace := self.pace + self.delta }, true)
  else
    (self, false)

/-- Embedding of `ProbeTracker::stop_probe`. -/
def ProbeTracker.stop_probe (self : ProbeTracker) : ProbeTracker :=
  { self with
    target_in_kbps := 0
    target_pace := 0
    pace := 0
    delta := 0 }

/-- Embedding of `ProbeTracker::next`. -/
def ProbeTracker.next (self : ProbeTracker) : Option AsDatum :=
  if self.target_pace > 0 then
    some (AsDatum.probe self.pace)
  else
    none

/-- The inbound command variants, `enum AdaptSignal` (declared outside
`src/`; the variants and payloads are fixed by the match arms in
`TimerSource::spawn` and by spec section 3). -/
inductive AdaptSignal where
  | ToRate (rate : Rat)
  | DecreaseDegradation
  | StartProbe (target_in_kbps : Rat)
  | IncreaseProbePace
  | StopProbe
deriving DecidableEq, Repr

/-- The merged event stream consumed by the loop, `enum Incoming` in
`source.rs`.  A `Timer` event carries the values the loop obtains from the
external policy on that tick: `size = source.next_datum()` and
`level = source.current_level()`. -/
inductive Incoming where
  | Timer (size : Nat) (level : Int)
  | Adapt (sig : AdaptSignal)
deriving DecidableEq, Repr

/-- The per-instance mutable state owned by the loop in
`TimerSource::spawn`: the pacer, the `bytes_emitted` counter, the
`probe_complete` flag, and the outbound data queue (`data_tx`). -/
structure LoopState where
  prober : ProbeTracker
  counter : Nat
  probe_done : Bool
  data_queue : List AsDatum
deriving DecidableEq, Repr

/-- The state created at the top of `TimerSource::spawn`: a fresh inactive
pacer, counter 0, flag false, empty queue. -/
def LoopState.spawn (tick_period : Nat) : LoopState :=
  { prober := ProbeTracker.new tick_period
    counter := 0
    probe_done := false
    data_queue := [] }

/-- One iteration of the `for_each` body in `TimerSource::spawn`: the
handling of a single `Incoming` event. -/
def stepEvent (s : LoopState) (e : Incoming) : LoopState :=
  match e with
  | .Timer size level =>
      if size = 0 then s
      else
        let s1 :=
          match s.prober.next with
          | some p =>
              { s with
                counter := s.counter + p.len
                data_queue := s.data_queue ++ [p] }
          | none => s
        let d := AsDatum.new level size
        { s1 with
          counter := s1.counter + d.len
          data_queue := s1.data_queue ++ [d] }
  | .Adapt (.ToRate _) => s
  | .Adapt .DecreaseDegradation => s
  | .Adapt (.StartProbe k) => { s with prober := s.prober.start_probe k }
  | .Adapt .IncreaseProbePace =>
      let r := s.prober.inc_pace
      { s with
        prober := r.1
        probe_done := if r.2 then s.probe_done else true }
  | .Adapt .StopProbe => { s with prober := s.prober.stop_probe }

/-- Running the loop over a finite sequence of events. -/
def run (s : LoopState) (evts : List Incoming) : LoopState :=
  evts.foldl stepEvent s

/-- The pacer-state part of one `IncreaseProbePace` command. -/
def stepPace (p : ProbeTracker) : ProbeTracker :=
  (p.inc_pace).1

/-- The Timer events corresponding to a list of ticks, each tick given by
the pair (policy chunk size, policy level). -/
def timerEvents (ticks : List (Nat × Int)) : List Incoming :=
  ticks.map fun t => Incoming.Timer t.1 t.2

/-- The rational value whose truncation `start_probe` stores in
`target_pace`: `(kbps * 1000 / 8) / (1000 / tick_period)`. -/
def paceValue (tick_period : Nat) (k : Rat) : Rat :=
  k * 1000 / 8 / (1000 / (tick_period : Rat))

/-- Pacer states reachable from a freshly constructed tracker through any
sequence of `start_probe`, `inc_pace` and `stop_probe` calls.  The boolean
records whether a probe is active, i.e. whether the most recent lifecycle
event was a `start_probe` (initially and after `stop_probe` it is
inactive). -/
inductive Reached (t : Nat) : ProbeTracker → Bool → Prop where
  | init : Reached t (ProbeTracker.new t) false
  | start {p : ProbeTracker} {a : Bool} (k : Rat) :
      Reached t p a → Reached t (p.start_probe k) true
  | step {p : ProbeTracker} {a : Bool} :
      Reached t p a → Reached t (p.inc_pace).1 a
  | stop {p : ProbeTracker} {a : Bool} :
      Reached t p a → Reached t p.stop_probe false

section BasicLemmas

lemma start_probe_target_pace (p : ProbeTracker) (k : Rat) :
    (p.start_probe k).target_pace = (Int.floor (paceValue p.tick_period k)).toNat := rfl

lemma start_probe_delta (p : ProbeTracker) (k : Rat) :
    (p.start_probe k).delta = (p.start_probe k).target_pace / 5 := rfl

lemma start_probe_pace (p : ProbeTracker) (k : Rat) :
    (p.start_probe k).pace = (p.start_probe k).delta := rfl

lemma start_probe_tick_period (p : ProbeTracker) (k : Rat) :
    (p.start_probe k).tick_period = p.tick_period := rfl

/-- Computing `target_pace` after `start_probe` from rational bounds on the
pace value. -/
lemma start_probe_target_pace_eq {p : ProbeTracker} {k : Rat} {n : Nat}
    (h1 : (n : Rat) ≤ paceValue p.tick_period k)
    (h2 : paceValue p.tick_period k < (n : Rat) + 1) :
    (p.start_probe k).target_pace = n := by
  have hfl : Int.floor (paceValue p.tick_period k) = (n : Int) := by
    rw [Int.floor_eq_iff]
    constructor
    · exact_mod_cast h1
    · exact_mod_cast h2
  rw [start_probe_target_pace, hfl]
  simp

lemma inc_pace_fst_target_pace (p : ProbeTracker) :
    ((p.inc_pace).1).target_pace = p.target_pace := by
  unfold ProbeTracker.inc_pace
  split <;> rfl

lemma inc_pace_fst_delta (p : ProbeTracker) :
    ((p.inc_pace).1).delta = p.delta := by
  unfold ProbeTracker.inc_pace
  split <;> rfl

lemma inc_pace_fst_pace (p : ProbeTracker) :
    ((p.inc_pace).1).pace =
      if p.pace < p.target_pace then p.pace + p.delta else p.pace := by
  unfold ProbeTracker.inc_pace
  split <;> simp_all

lemma inc_pace_of_lt {p : ProbeTracker} (h : p.pace < p.target_pace) :
    p.inc_pace = ({ p with pace := p.pace + p.delta }, true) := by
  unfold ProbeTracker.inc_pace
  rw [if_pos h]

lemma inc_pace_of_ge {p : ProbeTracker} (h : ¬ p.pace < p.target_pace) :
    p.inc_pace = (p, false) := by
  unfold ProbeTracker.inc_pace
  rw [if_neg h]

/-- With a zero step size, a non-saturated `inc_pace` reports "still
increasing" but leaves the tracker unchanged. -/
lemma inc_pace_delta_zero {q : ProbeTracker} (h : q.pace < q.target_pace)
    (hd : q.delta = 0) : q.inc_pace = (q, true) := by
  rw [inc_pace_of_lt h, hd, Nat.add_zero, ← hd]

lemma stepPace_eq (p : ProbeTracker) : stepPace p = (p.inc_pace).1 := rfl

/-- Field-level evaluation of one non-saturated `inc_pace` step. -/
lemma stepPace_facts {q : ProbeTracker} {T D P : Nat}
    (hT : q.target_pace = T) (hD : q.delta = D) (hP : q.pace = P)
    (h : P < T) :
    (q.inc_pace).1.target_pace = T ∧ (q.inc_pace).1.delta = D ∧
      (q.inc_pace).1.pace = P + D := by
  refine ⟨by rw [inc_pace_fst_target_pace, hT],
    by rw [inc_pace_fst_delta, hD], ?_⟩
  rw [inc_pace_fst_pace, hP, hT, hD, if_pos h]

end BasicLemmas

section LoopLemmas

/-- A non-idle tick, fully evaluated: a probe unit (if the pacer offers
one) is counted and enqueued before the regular unit. -/
lemma stepEvent_timer_eq (s : LoopState) (size : Nat) (level : Int)
    (h : size ≠ 0) :
    stepEvent s (.Timer size level) =
      match s.prober.next with
      | some p =>
          { s with
            counter := s.counter + p.len + size
            data_queue := s.data_queue ++ [p, AsDatum.new level size] }
      | none =>
          { s with
            counter := s.counter + size
            data_queue := s.data_queue ++ [AsDatum.new level size] } := by
  simp only [stepEvent, if_neg h]
  cases s.prober.next <;> simp [AsDatum.len, AsDatum.new]

lemma stepEvent_timer_prober (s : LoopState) (size : Nat) (level : Int) :
    (stepEvent s (.Timer size level)).prober = s.prober := by
  by_cases h : size = 0
  · subst h; rfl
  · rw [stepEvent_timer_eq s size level h]
    cases s.prober.next <;> rfl

lemma stepEvent_timer_probe_done (s : LoopState) (size : Nat) (level : Int) :
    (stepEvent s (.Timer size level)).probe_done = s.probe_done := by
  by_cases h : size = 0
  · subst h; rfl
  · rw [stepEvent_timer_eq s size level h]
    cases s.prober.next <;> rfl

/-- A non-idle tick with an inactive pacer emits exactly the regular unit. -/
lemma stepEvent_timer_inactive (s : LoopState) (size : Nat) (level : Int)
    (h : size ≠ 0) (hp : s.prober.target_pace = 0) :
    stepEvent s (.Timer size level) =
      { s with
        counter := s.counter + size
        data_queue := s.data_queue ++ [AsDatum.new level size] } := by
  have hnone : s.prober.next = none := by
    unfold ProbeTracker.next
    rw [hp]
    simp
  rw [stepEvent_timer_eq s size level h, hnone]

/-- No event ever stores `false` into the probe-complete flag. -/
lemma stepEvent_probe_done_mono (s : LoopState) (e : Incoming)
    (h : s.probe_done = true) : (stepEvent s e).probe_done = true := by
  cases e with
  | Timer size level => rw [stepEvent_timer_probe_done]; exact h
  | Adapt sig =>
    cases sig with
    | ToRate r => exact h
    | DecreaseDegradation => exact h
    | StartProbe k => exact h
    | IncreaseProbePace =>
      simp only [stepEvent]
      split <;> simp [h]
    | StopProbe => exact h

lemma run_probe_done_mono (evts : List Incoming) :
    ∀ s : LoopState, s.probe_done = true → (run s evts).probe_done = true := by
  induction evts with
  | nil => intro s h; exact h
  | cons e tl ih =>
    intro s h
    exact ih (stepEvent s e) (stepEvent_probe_done_mono s e h)

end LoopLemmas

/-- Claim C1: for every `target_kbps > 0` and `tick_period_ms > 0`, after
`start_probe` the field `target_pace` equals
`floor((target_kbps * 1000 / 8) / (1000 / tick_period_ms))`, `delta`
equals `floor(target_pace / 5)` (natural division is flooring), and `pace`
equals `delta`. -/
theorem start_probe_fields (p : ProbeTracker) (k : Rat)
    (hk : 0 < k) (ht : 0 < p.tick_period) :
    (((p.start_probe k).target_pace : Int) = Int.floor (paceValue p.tick_period k)) ∧
    (p.start_probe k).delta = (p.start_probe k).target_pace / 5 ∧
    (p.start_probe k).pace = (p.start_probe k).delta := by
  refine ⟨?_, rfl, rfl⟩
  have htq : (0 : Rat) < (p.tick_period : Rat) := by exact_mod_cast ht
  have hx : (0 : Rat) ≤ paceValue p.tick_period k := by
    unfold paceValue
    have h1 : (0 : Rat) ≤ k * 1000 / 8 :=
      div_nonneg (mul_nonneg hk.le (by norm_num)) (by norm_num)
    have h2 : (0 : Rat) < 1000 / (p.tick_period : Rat) :=
      div_pos (by norm_num) htq
    exact div_nonneg h1 h2.le
  rw [start_probe_target_pace]
  exact Int.toNat_of_nonneg (Int.floor_nonneg.mpr hx)

/-- Witness for C1 at `tick_period_ms = 20`, `target_kbps = 800` (the
spec's worked example: `target_pace = 2000`). -/
theorem start_probe_fields_witness :
    ((0 : Rat) < 800 ∧ 0 < (ProbeTracker.new 20).tick_period) ∧
    (((ProbeTracker.new 20).start_probe 800).target_pace = 2000) ∧
    ((((ProbeTracker.new 20).start_probe 800).target_pace : Int)
        = Int.floor (paceValue (ProbeTracker.new 20).tick_period 800) ∧
      ((ProbeTracker.new 20).start_probe 800).delta
        = ((ProbeTracker.new 20).start_probe 800).target_pace / 5 ∧
      ((ProbeTracker.new 20).start_probe 800).pace
        = ((ProbeTracker.new 20).start_probe 800).delta) :=
  ⟨⟨by norm_num, by decide⟩,
    start_probe_target_pace_eq (by norm_num [ProbeTracker.new, paceValue])
      (by norm_num [ProbeTracker.new, paceValue]),
    start_probe_fields (ProbeTracker.new 20) 800 (by norm_num) (by decide)⟩

/-- Claim C2 counterexample: `start_probe (1/2)` at tick period 20 gives
`target_pace = 1 < 5` (so `delta = 0`), yet the very first subsequent
`inc_pace` returns `true` ("still increasing"), not saturation. -/
theorem small_target_first_step_cex :
    (((ProbeTracker.new 20).start_probe (1/2)).target_pace < 5) ∧
    ((((ProbeTracker.new 20).start_probe (1/2)).inc_pace).2 = true) := by
  have htp : ((ProbeTracker.new 20).start_probe (1/2)).target_pace = 1 :=
    start_probe_target_pace_eq (by norm_num [ProbeTracker.new, paceValue])
      (by norm_num [ProbeTracker.new, paceValue])
  have hd : ((ProbeTracker.new 20).start_probe (1/2)).delta = 0 := by
    rw [start_probe_delta, htp]
  have hp : ((ProbeTracker.new 20).start_probe (1/2)).pace = 0 := by
    rw [start_probe_pace, hd]
  refine ⟨by rw [htp]; norm_num, ?_⟩
  rw [inc_pace_of_lt (by rw [hp, htp]; norm_num)]

/-- Claim C2 (amended): only when `start_probe` leaves `target_pace = 0`
does the very first `inc_pace` report saturation; when
`0 < target_pace < 5`, `delta` truncates to 0 and `inc_pace` reports
"still increasing" while leaving the tracker unchanged (so it never
saturates). -/
theorem small_target_step_behavior (p : ProbeTracker) (k : Rat) :
    ((p.start_probe k).target_pace = 0 →
      ((p.start_probe k).inc_pace).2 = false) ∧
    (0 < (p.start_probe k).target_pace → (p.start_probe k).target_pace < 5 →
      (p.start_probe k).delta = 0 ∧
      (p.start_probe k).inc_pace = (p.start_probe k, true)) := by
  constructor
  · intro h0
    have hp : (p.start_probe k).pace = 0 := by
      rw [start_probe_pace, start_probe_delta, h0]
    rw [inc_pace_of_ge (by rw [hp, h0]; omega)]
  · intro h1 h5
    have hd : (p.start_probe k).delta = 0 := by
      rw [start_probe_delta]
      exact Nat.div_eq_of_lt h5
    have hp : (p.start_probe k).pace = 0 := by rw [start_probe_pace, hd]
    exact ⟨hd, inc_pace_delta_zero (by rw [hp]; exact h1) hd⟩

/-- Witness for the amended C2 at `target_kbps = 0` (so `target_pace = 0`):
the first `inc_pace` reports saturation. -/
theorem small_target_step_behavior_witness :
    ((ProbeTracker.new 20).start_probe 0).target_pace = 0 ∧
    (((ProbeTracker.new 20).start_probe 0).inc_pace).2 = false := by
  have h0 : ((ProbeTracker.new 20).start_probe 0).target_pace = 0 :=
    start_probe_target_pace_eq (by norm_num [ProbeTracker.new, paceValue])
      (by norm_num [ProbeTracker.new, paceValue])
  exact ⟨h0, (small_target_step_behavior (ProbeTracker.new 20) 0).1 h0⟩

/-- Claim C7: a tick on which the policy returns size 0 changes nothing
and emits nothing — the whole loop state (pacer, counter, flag, queue) is
unchanged, even when a probe is active. -/
theorem idle_tick_noop (s : LoopState) (level : Int) :
    stepEvent s (.Timer 0 level) = s := rfl

/-- Claim C8: `stop_probe` always resets all four pacer attributes to
zero (keeping only the construction-time tick period), hence it is
idempotent and always lands in the inactive state, whatever start/step
history preceded it. -/
theorem stop_probe_resets (p : ProbeTracker) :
    p.stop_probe.target_in_kbps = 0 ∧ p.stop_probe.target_pace = 0 ∧
    p.stop_probe.pace = 0 ∧ p.stop_probe.delta = 0 ∧
    p.stop_probe.stop_probe = p.stop_probe ∧
    p.stop_probe.tick_period = p.tick_period :=
  ⟨rfl, rfl, rfl, rfl, rfl, rfl⟩

/-- Claim C3 counterexample: a reachable active state violates
`pace ≤ target_pace`.  Starting a probe at `target_kbps = 21/4` with tick
period 20 gives `target_pace = 13`, `delta = 2`, `pace = 2`; six
`inc_pace` steps drive `pace` to 14, strictly above `target_pace`. -/
theorem pace_invariant_cex :
    ∃ p : ProbeTracker, Reached 20 p true ∧ p.target_pace < p.pace := by
  have htp : ((ProbeTracker.new 20).start_probe (21/4)).target_pace = 13 :=
    start_probe_target_pace_eq (by norm_num [ProbeTracker.new, paceValue])
      (by norm_num [ProbeTracker.new, paceValue])
  have hd : ((ProbeTracker.new 20).start_probe (21/4)).delta = 2 := by
    rw [start_probe_delta, htp]
  have hp : ((ProbeTracker.new 20).start_probe (21/4)).pace = 2 := by
    rw [start_probe_pace, hd]
  obtain ⟨hT1, hD1, hP1⟩ := stepPace_facts htp hd hp (by norm_num)
  obtain ⟨hT2, hD2, hP2⟩ := stepPace_facts hT1 hD1 hP1 (by norm_num)
  obtain ⟨hT3, hD3, hP3⟩ := stepPace_facts hT2 hD2 hP2 (by norm_num)
  obtain ⟨hT4, hD4, hP4⟩ := stepPace_facts hT3 hD3 hP3 (by norm_num)
  obtain ⟨hT5, hD5, hP5⟩ := stepPace_facts hT4 hD4 hP4 (by norm_num)
  obtain ⟨hT6, hD6, hP6⟩ := stepPace_facts hT5 hD5 hP5 (by norm_num)
  refine ⟨_, Reached.step (Reached.step (Reached.step (Reached.step
    (Reached.step (Reached.step (Reached.start (21/4) Reached.init)))))), ?_⟩
  rw [hT6, hP6]
  norm_num

/-- Claim C3 (amended): in every reachable pacer state, while a probe is
active `0 ≤ pace ≤ target_pace + delta` (the final additive step may
overshoot the target by less than `delta`), and when inactive all four of
`target_in_kbps`, `target_pace`, `pace`, `delta` are simultaneously
zero. -/
theorem pace_invariant {t : Nat} {p : ProbeTracker} {a : Bool}
    (h : Reached t p a) :
    (a = true → p.pace ≤ p.target_pace + p.delta) ∧
    (a = false →
      p.target_in_kbps = 0 ∧ p.target_pace = 0 ∧ p.pace = 0 ∧ p.delta = 0) := by
  induction h with
  | init =>
    exact ⟨fun hh => Bool.noConfusion hh, fun _ => ⟨rfl, rfl, rfl, rfl⟩⟩
  | start k hr ih =>
    refine ⟨fun _ => ?_, fun hh => Bool.noConfusion hh⟩
    rw [start_probe_pace, start_probe_delta]
    exact Nat.le_add_left _ _
  | @step q b hr ih =>
    constructor
    · intro ha
      rw [inc_pace_fst_pace, inc_pace_fst_target_pace, inc_pace_fst_delta]
      have hb := ih.1 ha
      split
      · omega
      · exact hb
    · intro ha
      obtain ⟨h1, h2, h3, h4⟩ := ih.2 ha
      have hg : q.inc_pace = (q, false) := inc_pace_of_ge (by omega)
      rw [hg]
      exact ⟨h1, h2, h3, h4⟩
  | stop hr ih =>
    exact ⟨fun hh => Bool.noConfusion hh, fun _ => ⟨rfl, rfl, rfl, rfl⟩⟩

/-- Witness for the amended C3 at the initial (inactive) state. -/
theorem pace_invariant_witness :
    (ProbeTracker.new 20).target_in_kbps = 0 ∧
    (ProbeTracker.new 20).target_pace = 0 ∧
    (ProbeTracker.new 20).pace = 0 ∧ (ProbeTracker.new 20).delta = 0 :=
  (pace_invariant (Reached.init : Reached 20 (ProbeTracker.new 20) false)).2 rfl

/-- Claim C4: along any sequence of `inc_pace` calls, `pace` is
non-decreasing; while `pace < target_pace` a call advances `pace` by
exactly `delta` and reports "still increasing"; once `target_pace ≤ pace`
a call returns "saturated" and leaves the whole tracker unchanged. -/
theorem inc_pace_monotone_spec (p : ProbeTracker) (n : Nat) :
    ((stepPace^[n] p).pace ≤ (stepPace^[n+1] p).pace) ∧
    ((stepPace^[n] p).pace < (stepPace^[n] p).target_pace →
      (stepPace^[n+1] p).pace
          = (stepPace^[n] p).pace + (stepPace^[n] p).delta ∧
      ((stepPace^[n] p).inc_pace).2 = true) ∧
    ((stepPace^[n] p).target_pace ≤ (stepPace^[n] p).pace →
      (stepPace^[n] p).inc_pace = (stepPace^[n] p, false)) := by
  rw [Function.iterate_succ_apply']
  set q := stepPace^[n] p
  rw [stepPace_eq q]
  by_cases h : q.pace < q.target_pace
  · rw [inc_pace_of_lt h]
    exact ⟨Nat.le_add_right _ _, fun _ => ⟨rfl, rfl⟩,
      fun hge => absurd h (Nat.not_lt.mpr hge)⟩
  · rw [inc_pace_of_ge h]
    exact ⟨le_rfl, fun hlt => absurd hlt h, fun _ => rfl⟩

/-- Witness for C4 at `start_probe 800`, tick period 20, step 0: the pace
advances from 400 by `delta = 400`. -/
theorem inc_pace_monotone_spec_witness :
    ((stepPace^[0] ((ProbeTracker.new 20).start_probe 800)).pace
        < (stepPace^[0] ((ProbeTracker.new 20).start_probe 800)).target_pace) ∧
    (stepPace^[0+1] ((ProbeTracker.new 20).start_probe 800)).pace
        = (stepPace^[0] ((ProbeTracker.new 20).start_probe 800)).pace
          + (stepPace^[0] ((ProbeTracker.new 20).start_probe 800)).delta := by
  have htp : ((ProbeTracker.new 20).start_probe 800).target_pace = 2000 :=
    start_probe_target_pace_eq (by norm_num [ProbeTracker.new, paceValue])
      (by norm_num [ProbeTracker.new, paceValue])
  have hd : ((ProbeTracker.new 20).start_probe 800).delta = 400 := by
    rw [start_probe_delta, htp]
  have hp : ((ProbeTracker.new 20).start_probe 800).pace = 400 := by
    rw [start_probe_pace, hd]
  have hlt : (stepPace^[0] ((ProbeTracker.new 20).start_probe 800)).pace
      < (stepPace^[0] ((ProbeTracker.new 20).start_probe 800)).target_pace := by
    show ((ProbeTracker.new 20).start_probe 800).pace
        < ((ProbeTracker.new 20).start_probe 800).target_pace
    rw [hp, htp]
    norm_num
  exact ⟨hlt,
    ((inc_pace_monotone_spec ((ProbeTracker.new 20).start_probe 800) 0).2.1 hlt).1⟩

/-- Claim C5: an `IncreaseProbePace` event sets the probe-complete flag
exactly when `inc_pace` reports saturation; no event ever stores `false`
into the flag (so once true it stays true across any further events,
hence it transitions false→true at most once); neither `StartProbe` nor
`StopProbe` changes the flag. -/
theorem probe_done_flag_spec (s : LoopState) :
    ((stepEvent s (.Adapt .IncreaseProbePace)).probe_done
        = (s.probe_done || !(s.prober.inc_pace).2)) ∧
    (∀ e : Incoming, s.probe_done = true → (stepEvent s e).probe_done = true) ∧
    (∀ k : Rat, (stepEvent s (.Adapt (.StartProbe k))).probe_done = s.probe_done) ∧
    ((stepEvent s (.Adapt .StopProbe)).probe_done = s.probe_done) ∧
    (∀ evts : List Incoming, s.probe_done = true →
      (run s evts).probe_done = true) := by
  refine ⟨?_, fun e h => stepEvent_probe_done_mono s e h, fun k => rfl, rfl,
    fun evts h => run_probe_done_mono evts s h⟩
  simp only [stepEvent]
  cases hr : (s.prober.inc_pace).2 <;> simp [hr]

/-- Witness for C5: the flag starts false after spawn, and once true it
survives a timer event. -/
theorem probe_done_flag_spec_witness :
    ((LoopState.spawn 20).probe_done = false) ∧
    (stepEvent { LoopState.spawn 20 with probe_done := true }
        (.Timer 3 0)).probe_done = true :=
  ⟨rfl, (probe_done_flag_spec { LoopState.spawn 20 with probe_done := true }).2.1
    (.Timer 3 0) rfl⟩

/-- Claim C6: after any number of ticks on which the policy returns a
nonzero size while the pacer is inactive (`target_pace = 0`, so it offers
no probe unit), the byte counter has increased by exactly the sum of the
returned sizes. -/
theorem counter_sum_of_ticks (s : LoopState) (ticks : List (Nat × Int))
    (hpace : s.prober.target_pace = 0)
    (hsz : ∀ x ∈ ticks, x.1 ≠ 0) :
    (run s (timerEvents ticks)).counter
      = s.counter + (ticks.map Prod.fst).sum := by
  induction ticks generalizing s with
  | nil => simp [run, timerEvents]
  | cons hd tl ih =>
    have hhd : hd.1 ≠ 0 := hsz hd (List.mem_cons_self hd tl)
    have hstep := stepEvent_timer_inactive s hd.1 hd.2 hhd hpace
    have hp2 : (stepEvent s (.Timer hd.1 hd.2)).prober.target_pace = 0 := by
      rw [stepEvent_timer_prober]
      exact hpace
    have htl : ∀ x ∈ tl, x.1 ≠ 0 := fun x hx => hsz x (List.mem_cons_of_mem hd hx)
    have hrun : run s (timerEvents (hd :: tl))
        = run (stepEvent s (.Timer hd.1 hd.2)) (timerEvents tl) := rfl
    rw [hrun, ih (stepEvent s (.Timer hd.1 hd.2)) hp2 htl, hstep]
    simp [List.sum_cons]
    omega

/-- Witness for C6: two ticks of sizes 3 and 5 from the spawn state leave
the counter at 8. -/
theorem counter_sum_of_ticks_witness :
    ((LoopState.spawn 20).prober.target_pace = 0) ∧
    (∀ x ∈ [((3 : Nat), (1 : Int)), (5, 2)], x.1 ≠ 0) ∧
    (run (LoopState.spawn 20) (timerEvents [(3, 1), (5, 2)])).counter = 8 := by
  refine ⟨rfl, by decide, ?_⟩
  have h := counter_sum_of_ticks (LoopState.spawn 20) [(3, 1), (5, 2)] rfl (by decide)
  simpa [LoopState.spawn] using h

/-- Claim C9: `next` yields a probe-sentinel datum of size `pace` iff
`target_pace > 0` and nothing otherwise, and a timer event never changes
the pacer (the ramp advances only on explicit `IncreaseProbePace`
commands, not on ticks). -/
theorem next_probe_spec (p : ProbeTracker) (s : LoopState) (size : Nat)
    (level : Int) :
    (0 < p.target_pace → p.next = some (AsDatum.probe p.pace)) ∧
    (p.target_pace = 0 → p.next = none) ∧
    (stepEvent s (.Timer size level)).prober = s.prober := by
  refine ⟨fun h => ?_, fun h => ?_, stepEvent_timer_prober s size level⟩
  · unfold ProbeTracker.next
    rw [if_pos h]
  · unfold ProbeTracker.next
    rw [if_neg (by omega)]

/-- Witness for C9: an active tracker yields a probe unit of its current
pace, the fresh inactive tracker yields nothing. -/
theorem next_probe_spec_witness :
    (0 < (ProbeTracker.mk 20 800 2000 400 400).target_pace) ∧
    ProbeTracker.next (ProbeTracker.mk 20 800 2000 400 400)
      = some (AsDatum.probe 400) ∧
    ProbeTracker.next (ProbeTracker.new 20) = none :=
  ⟨by decide,
    (next_probe_spec (ProbeTracker.mk 20 800 2000 400 400)
      (LoopState.spawn 20) 0 0).1 (by decide),
    (next_probe_spec (ProbeTracker.new 20) (LoopState.spawn 20) 0 0).2.1 rfl⟩

/-- Claim C10: an `IncreaseProbePace` command arriving while the pacer is
inactive (`target_pace = 0`, `pace = 0`) makes `inc_pace` report
saturation immediately and the loop set the probe-complete flag, even
though no probe was ever started. -/
theorem inactive_inc_pace_completes (s : LoopState)
    (h1 : s.prober.target_pace = 0) (h2 : s.prober.pace = 0) :
    ((s.prober.inc_pace).2 = false) ∧
    (stepEvent s (.Adapt .IncreaseProbePace)).probe_done = true := by
  have hb : s.prober.inc_pace = (s.prober, false) :=
    inc_pace_of_ge (by omega)
  refine ⟨by rw [hb], ?_⟩
  simp [stepEvent, hb]

/-- Witness for C10 at the spawn state (probe never started). -/
theorem inactive_inc_pace_completes_witness :
    ((LoopState.spawn 20).prober.target_pace = 0 ∧
      (LoopState.spawn 20).prober.pace = 0) ∧
    (((LoopState.spawn 20).prober.inc_pace).2 = false) ∧
    (stepEvent (LoopState.spawn 20) (.Adapt .IncreaseProbePace)).probe_done
      = true :=
  ⟨⟨rfl, rfl⟩, inactive_inc_pace_completes (LoopState.spawn 20) rfl rfl⟩

end AWStream
